import Mathlib

/-
  Verification of the ClientEditDoc edit-session facade
  (src/rust-lib/flowy-document/src/services/doc/edit/edit_doc.rs).

  Shallow embedding conventions:
  * Channel round trips are modelled by passing the environment's reply (or a
    liveness flag for a lost reply channel) as an explicit argument; a message
    enqueued to a worker is processed by that worker even when the caller's
    reply channel is lost, matching the cancellation semantics of the system.
  * The Document Actor (edit_actor.rs) and the Revision Manager are not part
    of the sources at hand; their transitions are modelled from the spec and
    marked as such in their doc comments.
  * Every facade operation returns its result together with the updated
    session state and the trace of worker interactions it performed.
-/

namespace AppFlowy

/-! ## Data model -/

inductive DocError
  | internal
  | malformed
  | outOfRange
  | persistence
deriving DecidableEq, Repr

/-- One OT edit operation; the OT algebra itself is an external collaborator,
so operations are opaque tokens recording the request that produced them. -/
inductive EditOp
  | Insert (index : Nat) (data : String)
  | Delete (start finish : Nat)
  | Format (start finish : Nat) (attr : String)
  | Replace (start finish : Nat) (data : String)
deriving DecidableEq, Repr

/-- A Delta is an ordered sequence of OT operations. -/
abbrev Delta := List EditOp

/-- Composition of two deltas (external OT algebra, abstracted as
concatenation of the operation sequences). -/
def Delta.compose (a b : Delta) : Delta := a ++ b

/-- Serialized bytes that may or may not decode to a Delta; `none` stands for
undecodable bytes. -/
abbrev Bytes := Option Delta

def Delta.toBytes (d : Delta) : Bytes := some d

/-- `Delta::from_bytes`: decoding fails on malformed bytes. -/
def Delta.fromBytes : Bytes → Except DocError Delta
  | some d => .ok d
  | none => .error .malformed

/-- Serialization of the current document content to a string (used by the
`Doc` read projection). -/
def serialize (d : Delta) : String := toString (repr d)

inductive RevType
  | Local
  | Remote
deriving DecidableEq, Repr

abbrev RevId := Nat

/-- `Revision { base_rev_id, rev_id, delta_data, doc_id, ty }`. -/
structure Revision where
  base_rev_id : RevId
  rev_id : RevId
  delta_data : Bytes
  doc_id : String
  ty : RevType
deriving DecidableEq, Repr

/-- `Revision::new(base_rev_id, rev_id, delta_data, doc_id, ty)`. -/
def Revision.new (base_rev_id rev_id : RevId) (delta_data : Bytes)
    (doc_id : String) (ty : RevType) : Revision :=
  ⟨base_rev_id, rev_id, delta_data, doc_id, ty⟩

/-- `Doc` snapshot: read projection `{ id, data, rev_id }`. -/
structure Doc where
  id : String
  data : String
  rev_id : RevId
deriving DecidableEq, Repr

/-- Messages sent to the Document Actor (the `EditMsg` enum; the per-message
reply channels are modelled separately as environment replies). -/
inductive EditMsg
  | Insert (index : Nat) (data : String)
  | Delete (start finish : Nat)
  | Format (start finish : Nat) (attr : String)
  | Replace (start finish : Nat) (data : String)
  | CanUndo
  | CanRedo
  | Undo
  | Redo
  | Doc
  | Delta (delta : AppFlowy.Delta)
  | SaveDocument (rev_id : RevId)
deriving DecidableEq, Repr

/-- One observable worker interaction performed by the facade. -/
inductive Action
  | sendEdit (m : EditMsg)
  | rmAddRevision (r : Revision)
  | rmSendRevisions (start finish : RevId)
  | rmAckRev (rev_id : RevId)
  | logError (e : DocError)
deriving DecidableEq, Repr

/-! ## Document Actor (modelled from the spec) -/

/-- State of the Document Actor: current Delta, undo/redo stacks, and the
last-checkpointed (saved) revision id. -/
structure EditActorState where
  delta : Delta
  undoStack : List Delta
  redoStack : List Delta
  savedRev : RevId
deriving DecidableEq, Repr

/-- Modelled from the spec: the Document Actor's handling of a primitive edit
command (`edit_actor.rs` is not among the sources at hand).  On success it
composes the constructed operation into the current Delta, pushes an undo
record (the pre-state, standing for the inverse operation), clears the redo
stack, and replies with the serialized new Delta; a malformed index/interval
(here: the external bounds check `applyOk` is false) fails the command and
leaves the state untouched (apply-or-reject atomically per command). -/
def actorPrimitive (op : EditOp) (applyOk : Bool) (st : EditActorState) :
    EditActorState × Except DocError Delta :=
  if applyOk then
    ({ st with
        delta := st.delta.compose [op]
        undoStack := st.delta :: st.undoStack
        redoStack := [] },
      .ok (st.delta.compose [op]))
  else
    (st, .error .outOfRange)

/-- Modelled from the spec: the Document Actor's handling of an externally
supplied, already-composed delta (`EditMsg::Delta`); composes it into the
current state and does not touch the undo/redo stacks. -/
def actorDelta (d : Delta) (st : EditActorState) :
    EditActorState × Except DocError Unit :=
  ({ st with delta := st.delta.compose d }, .ok ())

/-- Modelled from the spec: `EditMsg::SaveDocument` records the given revision
id as the checkpoint watermark. -/
def actorSave (rev_id : RevId) (st : EditActorState) : EditActorState :=
  { st with savedRev := rev_id }

/-- Modelled from the spec: `EditMsg::CanUndo` replies with undo-stack
non-emptiness. -/
def actorCanUndo (st : EditActorState) : Bool := !st.undoStack.isEmpty

/-- Modelled from the spec: `EditMsg::CanRedo` replies with redo-stack
non-emptiness. -/
def actorCanRedo (st : EditActorState) : Bool := !st.redoStack.isEmpty

/-- Modelled from the spec: `EditMsg::Doc` replies with the serialized
current content. -/
def actorDoc (st : EditActorState) : String := serialize st.delta

/-! ## Revision Manager (modelled from the spec) -/

/-- Modelled from the spec: the Revision Manager's per-document state — the
monotonic head revision id and the persisted revision chain (the RevisionManager
sources are not at hand). -/
structure RevisionManager where
  rev_id : RevId
  chain : List Revision
deriving DecidableEq, Repr

/-- Modelled from the spec: `next_rev_id()` atomically returns
`(base_rev_id, rev_id)` with `rev_id = base_rev_id + 1` and advances the head.
It is one atomic step: no other allocation can interleave inside it. -/
def RevisionManager.next_rev_id (rm : RevisionManager) :
    (RevId × RevId) × RevisionManager :=
  ((rm.rev_id, rm.rev_id + 1), { rm with rev_id := rm.rev_id + 1 })

/-- Modelled from the spec: `add_revision` forwards the revision to the store
worker for persistence (appending it to the chain) and transmits it; the
persistence outcome is supplied by the environment. -/
def RevisionManager.add_revision (r : Revision)
    (persistRes : Except DocError Unit) (rm : RevisionManager) :
    Except DocError Unit × RevisionManager :=
  match persistRes with
  | .ok _ => (.ok (), { rm with chain := rm.chain ++ [r] })
  | .error e => (.error e, rm)

/-! ## Edit session state and environment -/

/-- The per-document edit session: the facade's own `doc_id` plus the states
of the two workers it holds mailboxes to. -/
structure SessionState where
  doc_id : String
  actor : EditActorState
  rm : RevisionManager
deriving DecidableEq, Repr

/-- Environment of one facade edit call: whether the Document Actor's reply
channel delivers (`rx.await` succeeds), the external OT bounds-check outcome
for the primitive operation, the persistence outcome inside `add_revision`,
and whether the `SaveDocument` reply channel delivers. -/
structure EditEnv where
  actorAlive : Bool
  applyOk : Bool
  persistRes : Except DocError Unit
  saveAlive : Bool

/-- `rx.await.map_err(internal_error)?`: a lost reply channel becomes an
internal error, otherwise the worker's reply is returned. -/
def recv {α : Type} (alive : Bool) (v : Except DocError α) : Except DocError α :=
  if alive then v else .error .internal

/-! ## Facade operations (from edit_doc.rs) -/

/-- `ClientEditDoc::mk_revision` (edit_doc.rs lines 145-151): ask the Revision
Manager for the next id pair, construct a `Revision { origin: Local }` from the
delta bytes, and hand it to the Revision Manager for persistence. -/
def mk_revision (delta_data : Bytes) (persistRes : Except DocError Unit)
    (s : SessionState) : Except DocError RevId × SessionState × List Action :=
  let ((base_rev_id, rev_id), rm1) := s.rm.next_rev_id
  let revision := Revision.new base_rev_id rev_id delta_data s.doc_id RevType.Local
  let (res, rm2) := RevisionManager.add_revision revision persistRes rm1
  match res with
  | .error e => (.error e, { s with rm := rm2 }, [Action.rmAddRevision revision])
  | .ok _ => (.ok rev_id, { s with rm := rm2 }, [Action.rmAddRevision revision])

/-- `save_document` (edit_doc.rs lines 207-212): send `SaveDocument { rev_id }`
to the Document Actor and await the reply; the enqueued message is processed by
the actor even when the reply channel is lost. -/
def save_document (rev_id : RevId) (saveAlive : Bool) (s : SessionState) :
    Except DocError Unit × SessionState × List Action :=
  (recv saveAlive (.ok ()),
    { s with actor := actorSave rev_id s.actor },
    [Action.sendEdit (EditMsg.SaveDocument rev_id)])

/-- `ClientEditDoc::insert` (edit_doc.rs lines 58-69): send `EditMsg::Insert`,
await the composed-delta reply, commit a revision from its bytes, then notify
the actor of the checkpointed revision id. -/
def ClientEditDoc.insert (index : Nat) (data : String) (env : EditEnv)
    (s : SessionState) : Except DocError Unit × SessionState × List Action :=
  let (actor1, reply) := actorPrimitive (EditOp.Insert index data) env.applyOk s.actor
  let s1 := { s with actor := actor1 }
  let tr := [Action.sendEdit (EditMsg.Insert index data)]
  match recv env.actorAlive reply with
  | .error e => (.error e, s1, tr)
  | .ok delta =>
    let (res, s2, tr2) := mk_revision delta.toBytes env.persistRes s1
    match res with
    | .error e => (.error e, s2, tr ++ tr2)
    | .ok rev_id =>
      let (r3, s3, tr3) := save_document rev_id env.saveAlive s2
      (r3, s3, tr ++ tr2 ++ tr3)

/-- `ClientEditDoc::delete` (edit_doc.rs lines 71-78): send `EditMsg::Delete`,
await the composed-delta reply, commit a revision from its bytes, and return
`Ok(())` (no `SaveDocument` notification is sent). -/
def ClientEditDoc.delete (start finish : Nat) (env : EditEnv)
    (s : SessionState) : Except DocError Unit × SessionState × List Action :=
  let (actor1, reply) := actorPrimitive (EditOp.Delete start finish) env.applyOk s.actor
  let s1 := { s with actor := actor1 }
  let tr := [Action.sendEdit (EditMsg.Delete start finish)]
  match recv env.actorAlive reply with
  | .error e => (.error e, s1, tr)
  | .ok delta =>
    let (res, s2, tr2) := mk_revision delta.toBytes env.persistRes s1
    match res with
    | .error e => (.error e, s2, tr ++ tr2)
    | .ok _ => (.ok (), s2, tr ++ tr2)

/-- `ClientEditDoc::format` (edit_doc.rs lines 80-91): like `delete`, for
`EditMsg::Format`; no `SaveDocument` notification is sent. -/
def ClientEditDoc.format (start finish : Nat) (attr : String) (env : EditEnv)
    (s : SessionState) : Except DocError Unit × SessionState × List Action :=
  let (actor1, reply) := actorPrimitive (EditOp.Format start finish attr) env.applyOk s.actor
  let s1 := { s with actor := actor1 }
  let tr := [Action.sendEdit (EditMsg.Format start finish attr)]
  match recv env.actorAlive reply with
  | .error e => (.error e, s1, tr)
  | .ok delta =>
    let (res, s2, tr2) := mk_revision delta.toBytes env.persistRes s1
    match res with
    | .error e => (.error e, s2, tr ++ tr2)
    | .ok _ => (.ok (), s2, tr ++ tr2)

/-- `ClientEditDoc::replace` (edit_doc.rs lines 93-104): like `delete`, for
`EditMsg::Replace`; no `SaveDocument` notification is sent. -/
def ClientEditDoc.replace (start finish : Nat) (data : String) (env : EditEnv)
    (s : SessionState) : Except DocError Unit × SessionState × List Action :=
  let (actor1, reply) := actorPrimitive (EditOp.Replace start finish data) env.applyOk s.actor
  let s1 := { s with actor := actor1 }
  let tr := [Action.sendEdit (EditMsg.Replace start finish data)]
  match recv env.actorAlive reply with
  | .error e => (.error e, s1, tr)
  | .ok delta =>
    let (res, s2, tr2) := mk_revision delta.toBytes env.persistRes s1
    match res with
    | .error e => (.error e, s2, tr ++ tr2)
    | .ok _ => (.ok (), s2, tr ++ tr2)

/-- `ClientEditDoc::compose_local_delta` (edit_doc.rs lines 154-163): decode the
bytes, send `EditMsg::Delta` to the actor, await the ack, commit a revision
from the original bytes, then notify the actor of the checkpointed id. -/
def ClientEditDoc.compose_local_delta (data : Bytes) (env : EditEnv)
    (s : SessionState) : Except DocError Unit × SessionState × List Action :=
  match Delta.fromBytes data with
  | .error e => (.error e, s, [])
  | .ok delta =>
    let (actor1, reply) := actorDelta delta s.actor
    let s1 := { s with actor := actor1 }
    let tr := [Action.sendEdit (EditMsg.Delta delta)]
    match recv env.actorAlive reply with
    | .error e => (.error e, s1, tr)
    | .ok _ =>
      let (res, s2, tr2) := mk_revision data env.persistRes s1
      match res with
      | .error e => (.error e, s2, tr ++ tr2)
      | .ok rev_id =>
        let (r3, s3, tr3) := save_document rev_id env.saveAlive s2
        (r3, s3, tr ++ tr2 ++ tr3)

/-- `ClientEditDoc::can_undo` (edit_doc.rs lines 106-111):
`rx.await.unwrap_or(false)` over the actor's `CanUndo` reply. -/
def ClientEditDoc.can_undo (alive : Bool) (s : SessionState) : Bool :=
  if alive then actorCanUndo s.actor else false

/-- `ClientEditDoc::can_redo` (edit_doc.rs lines 113-118):
`rx.await.unwrap_or(false)` over the actor's `CanRedo` reply. -/
def ClientEditDoc.can_redo (alive : Bool) (s : SessionState) : Bool :=
  if alive then actorCanRedo s.actor else false

/-- `ClientEditDoc::doc` (edit_doc.rs lines 134-143): await the actor's
serialized state (`docReply`; a lost channel is an internal error), then
assemble the snapshot from it, the session's `doc_id`, and the Revision
Manager's current id. -/
def ClientEditDoc.doc (alive : Bool) (docReply : Except DocError String)
    (s : SessionState) : Except DocError Doc :=
  match recv alive docReply with
  | .error e => .error e
  | .ok data => .ok { id := s.doc_id, data := data, rev_id := s.rm.rev_id }

/-! ## Session construction (edit_doc.rs lines 34-56) -/

/-- The `DocRevision { rev_id, delta }` returned by the initial fetch. -/
structure DocRevision where
  rev_id : RevId
  delta : Delta
deriving DecidableEq, Repr

/-- Which workers `ClientEditDoc::new` has spawned or created by the time it
returns. -/
structure SpawnLog where
  revStore : Bool
  docActor : Bool
  revManager : Bool
deriving DecidableEq, Repr

/-- `ClientEditDoc::new` (edit_doc.rs lines 34-56): resolve the user id, spawn
the Revision Store Worker, fetch the initial document through it, then create
the Revision Manager and spawn the Document Actor.  The identity and fetch
outcomes are environment inputs; on an error return no worker handle is part
of the result, so an already-spawned store worker's mailbox sender is
dropped. -/
def ClientEditDoc.new (doc_id : String) (userIdRes : Except DocError String)
    (fetchRes : Except DocError DocRevision) :
    Except DocError SessionState × SpawnLog :=
  match userIdRes with
  | .error e => (.error e, ⟨false, false, false⟩)
  | .ok _user_id =>
    match fetchRes with
    | .error e => (.error e, ⟨true, false, false⟩)
    | .ok dr =>
      (.ok { doc_id := doc_id
             actor := { delta := dr.delta, undoStack := [], redoStack := [], savedRev := 0 }
             rm := { rev_id := dr.rev_id, chain := [] } },
        ⟨true, true, true⟩)

/-! ## Inbound transport handling (edit_doc.rs lines 174-230) -/

inductive WsDataType
  | PushRev
  | PullRev
  | NewDocUser
  | Acked
  | Conflict
deriving DecidableEq, Repr

/-- Inbound payload bytes, abstracted by what they decode to; `garbage` stands
for bytes that decode to none of the expected types. -/
inductive WsPayload
  | revision (r : Revision)
  | range (start finish : RevId)
  | revId (rev_id : RevId)
  | garbage
deriving DecidableEq, Repr

/-- Wire envelope `WsDocumentData { ty, data }`. -/
structure WsDocumentData where
  ty : WsDataType
  data : WsPayload
deriving DecidableEq, Repr

/-- `Revision::try_from(bytes)`. -/
def Revision.try_from : WsPayload → Except DocError Revision
  | .revision r => .ok r
  | _ => .error .malformed

/-- `RevisionRange::try_from(bytes)` (the range's start and end ids). -/
def RevisionRange.try_from : WsPayload → Except DocError (RevId × RevId)
  | .range a b => .ok (a, b)
  | _ => .error .malformed

/-- `RevId::try_from(bytes)`. -/
def RevId.try_from : WsPayload → Except DocError RevId
  | .revId n => .ok n
  | _ => .error .malformed

/-- Environment of one `handle_push_rev` call. -/
structure PushEnv where
  persistRes : Except DocError Unit
  deltaAlive : Bool
  saveAlive : Bool

/-- `handle_push_rev` (edit_doc.rs lines 214-230): decode the `Revision`,
commit it via the Revision Manager, apply its delta to the Document Actor via
`EditMsg::Delta`, then send `SaveDocument` with the received `rev_id` — the
result of that final call is discarded and `Ok(())` is returned. -/
def handle_push_rev (rev_bytes : WsPayload) (env : PushEnv) (s : SessionState) :
    Except DocError Unit × SessionState × List Action :=
  match Revision.try_from rev_bytes with
  | .error e => (.error e, s, [])
  | .ok revision =>
    let (res, rm1) := RevisionManager.add_revision revision env.persistRes s.rm
    let s1 := { s with rm := rm1 }
    let tr1 := [Action.rmAddRevision revision]
    match res with
    | .error e => (.error e, s1, tr1)
    | .ok _ =>
      match Delta.fromBytes revision.delta_data with
      | .error e => (.error e, s1, tr1)
      | .ok delta =>
        let (actor1, reply) := actorDelta delta s1.actor
        let s2 := { s1 with actor := actor1 }
        let tr2 := tr1 ++ [Action.sendEdit (EditMsg.Delta delta)]
        match recv env.deltaAlive reply with
        | .error e => (.error e, s2, tr2)
        | .ok _ =>
          let (_saveRes, s3, tr3) := save_document revision.rev_id env.saveAlive s2
          (.ok (), s3, tr2 ++ tr3)

/-- Environment of one inbound-envelope dispatch. -/
structure WsEnv where
  push : PushEnv
  sendRevisionsRes : Except DocError Unit

/-- The dispatch closure inside `ClientEditDoc::receive` (edit_doc.rs lines
178-196): handle one envelope by type; `NewDocUser` and `Conflict` are
no-ops. -/
def handle_ws_message (doc_data : WsDocumentData) (env : WsEnv)
    (s : SessionState) : Except DocError Unit × SessionState × List Action :=
  match doc_data.ty with
  | .PushRev => handle_push_rev doc_data.data env.push s
  | .PullRev =>
    match RevisionRange.try_from doc_data.data with
    | .error e => (.error e, s, [])
    | .ok (a, b) =>
      match env.sendRevisionsRes with
      | .error e => (.error e, s, [Action.rmSendRevisions a b])
      | .ok _ => (.ok (), s, [Action.rmSendRevisions a b])
  | .NewDocUser => (.ok (), s, [])
  | .Acked =>
    match RevId.try_from doc_data.data with
    | .error e => (.error e, s, [])
    | .ok rev_id => (.ok (), s, [Action.rmAckRev rev_id])
  | .Conflict => (.ok (), s, [])

/-- `ClientEditDoc::receive` (edit_doc.rs lines 174-203): fire-and-forget — the
Rust function returns `()` immediately and the spawned task logs any handling
error; accordingly no error is part of the result, only the state and the
trace (with a `logError` appended on failure). -/
def ClientEditDoc.receive (doc_data : WsDocumentData) (env : WsEnv)
    (s : SessionState) : SessionState × List Action :=
  match handle_ws_message doc_data env s with
  | (.error e, s1, tr) => (s1, tr ++ [Action.logError e])
  | (.ok _, s1, tr) => (s1, tr)

/-! ## Two concurrent local edits (interleaving model for the apply/commit race)

A local edit call performs its suspension points as separate, non-atomic
phases (edit_doc.rs lines 58-69 and 145-151): (1) the Document Actor applies
the edit and replies with the composed delta, (2) the Revision Manager
allocates the next id pair (one atomic step, per its spec), (3) `add_revision`
persists the revision built from the captured bytes.  Nothing in the facade
holds a lock across these phases, so two concurrent calls on the same session
interleave at phase boundaries.  `raceRun` executes two such edits under an
arbitrary schedule. -/

/-- Progress of one in-flight edit call: its next phase (`0` apply, `1`
allocate, `2` persist, `3` done), the composed delta captured from the actor's
reply, and the allocated id pair. -/
structure ThreadState where
  pc : Nat
  captured : Delta
  base_rev_id : RevId
  rev_id : RevId
deriving DecidableEq, Repr

/-- Shared state of the interleaving model: the Document Actor's content, the
Revision Manager's head and persisted chain, both in-flight edits, and the
order in which applications and allocations happened. -/
structure RaceState where
  actorContent : Delta
  head : RevId
  chain : List Revision
  t0 : ThreadState
  t1 : ThreadState
  applyOrder : List Nat
  allocOrder : List Nat
deriving DecidableEq, Repr

/-- Execute the next phase of the edit `i` carrying operation `op`.  Phase 0 is
the actor's (FIFO-serialized) apply, replying with the composed delta; phase 1
is the atomic `next_rev_id`; phase 2 builds the `Revision` from the captured
bytes and persists it. -/
def runPhase (op : EditOp) (i : Nat) (t : ThreadState) (s : RaceState) :
    ThreadState × RaceState :=
  match t.pc with
  | 0 =>
    ({ t with pc := 1, captured := s.actorContent.compose [op] },
      { s with
          actorContent := s.actorContent.compose [op]
          applyOrder := s.applyOrder ++ [i] })
  | 1 =>
    ({ t with pc := 2, base_rev_id := s.head, rev_id := s.head + 1 },
      { s with head := s.head + 1, allocOrder := s.allocOrder ++ [i] })
  | 2 =>
    ({ t with pc := 3 },
      { s with
          chain := s.chain ++
            [Revision.new t.base_rev_id t.rev_id t.captured.toBytes "doc" RevType.Local] })
  | _ => (t, s)

/-- One scheduler step: advance edit `0` or edit `1`. -/
def raceStep (op0 op1 : EditOp) (i : Nat) (s : RaceState) : RaceState :=
  if i = 0 then
    let (t, s1) := runPhase op0 0 s.t0 s
    { s1 with t0 := t }
  else
    let (t, s1) := runPhase op1 1 s.t1 s
    { s1 with t1 := t }

/-- Run a schedule (a list of edit indices) from a state. -/
def raceRun (op0 op1 : EditOp) (sched : List Nat) (s : RaceState) : RaceState :=
  sched.foldl (fun st i => raceStep op0 op1 i st) s

/-- Initial state: empty document at head revision 0, both edits at phase 0. -/
def raceInit : RaceState :=
  { actorContent := []
    head := 0
    chain := []
    t0 := ⟨0, [], 0, 0⟩
    t1 := ⟨0, [], 0, 0⟩
    applyOrder := []
    allocOrder := [] }

/-- All schedules of a given length over the two edit indices. -/
def allScheds : Nat → List (List Nat)
  | 0 => [[]]
  | n + 1 =>
    (allScheds n).map (fun l => 0 :: l) ++ (allScheds n).map (fun l => 1 :: l)

/-! ## Helper predicates on traces -/

/-- Whether an action is a `SaveDocument` notification to the Document Actor. -/
def isSaveMsg : Action → Bool
  | .sendEdit (EditMsg.SaveDocument _) => true
  | _ => false

/-- Whether an action hands a revision to the Revision Manager. -/
def isAddRev : Action → Bool
  | .rmAddRevision _ => true
  | _ => false

/-- Whether an action logs an error. -/
def isLog : Action → Bool
  | .logError _ => true
  | _ => false

/-- A small concrete session used by concrete runs: empty document "doc" at
head revision 0. -/
def s0 : SessionState :=
  { doc_id := "doc"
    actor := { delta := [], undoStack := [], redoStack := [], savedRev := 0 }
    rm := { rev_id := 0, chain := [] } }

/-! ## Claims -/

/-- Claim C1: two local edits dispatched concurrently on the same session.
The allocated revision ids are indeed distinct in every complete schedule
(`next_rev_id` is one atomic step), but the claim that the implementation
closes the apply/commit race fails: no lock spans the apply and commit round
trips and ids are allocated by the Revision Manager, not by the actor that
applies the edit.  The failing schedule `[0, 1, 1, 1, 0, 0]` applies edit 0
first yet allocates its revision id second, so the persisted chain carries
revision 1 with the content captured by the second-applied edit and revision 2
with the content captured by the first-applied edit — the chain does not match
the application order. -/
theorem concurrent_edits_race_open :
    ((allScheds 6).all (fun sched =>
      ((raceRun (EditOp.Insert 0 "a") (EditOp.Insert 0 "b") sched raceInit).t0.pc != 3) ||
      ((raceRun (EditOp.Insert 0 "a") (EditOp.Insert 0 "b") sched raceInit).t1.pc != 3) ||
      ((raceRun (EditOp.Insert 0 "a") (EditOp.Insert 0 "b") sched raceInit).t0.rev_id !=
        (raceRun (EditOp.Insert 0 "a") (EditOp.Insert 0 "b") sched raceInit).t1.rev_id)) = true) ∧
    (raceRun (EditOp.Insert 0 "a") (EditOp.Insert 0 "b") [0, 1, 1, 1, 0, 0] raceInit).applyOrder
      = [0, 1] ∧
    (raceRun (EditOp.Insert 0 "a") (EditOp.Insert 0 "b") [0, 1, 1, 1, 0, 0] raceInit).allocOrder
      = [1, 0] ∧
    (raceRun (EditOp.Insert 0 "a") (EditOp.Insert 0 "b") [0, 1, 1, 1, 0, 0] raceInit).chain =
      [Revision.new 0 1 (Delta.toBytes [EditOp.Insert 0 "a", EditOp.Insert 0 "b"]) "doc"
        RevType.Local,
       Revision.new 1 2 (Delta.toBytes [EditOp.Insert 0 "a"]) "doc" RevType.Local] :=
  ⟨by decide, rfl, rfl, rfl⟩

/-- Claim C2, counterexample: a fully successful `delete` (apply confirmed,
revision committed) sends no `SaveDocument` notification to the Document
Actor, contradicting the claim that all four primitive edits perform
step (e). -/
theorem delete_sends_no_save_cex :
    (ClientEditDoc.delete 0 1 ⟨true, true, .ok (), true⟩ s0).1 = .ok () ∧
    ((ClientEditDoc.delete 0 1 ⟨true, true, .ok (), true⟩ s0).2.2.any isSaveMsg) = false :=
  ⟨rfl, rfl⟩

/-- Claim C2, amended: after a successful apply and revision commit, only
`insert` notifies the Document Actor of the checkpointed revision id;
`delete`, `format` and `replace` commit the revision but send no
`SaveDocument` message. -/
theorem only_insert_sends_save (index a b : Nat) (text attr : String)
    (saveAlive : Bool) (s : SessionState) :
    ((ClientEditDoc.insert index text ⟨true, true, .ok (), saveAlive⟩ s).2.2.any isSaveMsg
      = true) ∧
    ((ClientEditDoc.delete a b ⟨true, true, .ok (), saveAlive⟩ s).2.2.any isSaveMsg = false) ∧
    ((ClientEditDoc.format a b attr ⟨true, true, .ok (), saveAlive⟩ s).2.2.any isSaveMsg
      = false) ∧
    ((ClientEditDoc.replace a b text ⟨true, true, .ok (), saveAlive⟩ s).2.2.any isSaveMsg
      = false) :=
  ⟨rfl, rfl, rfl, rfl⟩

/-- Claim C3: when the Document Actor's reply reports failure or the reply
channel is lost, every local edit operation returns an error, leaves the
Revision Manager untouched (no revision id is consumed, no revision is
appended), and performs no `add_revision` interaction.  For
`compose_local_delta` the reply-failure mode is the lost channel. -/
theorem failed_apply_consumes_no_rev_id (index a b : Nat) (text attr : String)
    (alive ok saveAlive : Bool) (p : Except DocError Unit) (bytes : Bytes)
    (s : SessionState) (h : alive = false ∨ ok = false) :
    (∃ e, (ClientEditDoc.insert index text ⟨alive, ok, p, saveAlive⟩ s).1 = .error e) ∧
    (ClientEditDoc.insert index text ⟨alive, ok, p, saveAlive⟩ s).2.1.rm = s.rm ∧
    ((ClientEditDoc.insert index text ⟨alive, ok, p, saveAlive⟩ s).2.2.any isAddRev = false) ∧
    (∃ e, (ClientEditDoc.delete a b ⟨alive, ok, p, saveAlive⟩ s).1 = .error e) ∧
    (ClientEditDoc.delete a b ⟨alive, ok, p, saveAlive⟩ s).2.1.rm = s.rm ∧
    ((ClientEditDoc.delete a b ⟨alive, ok, p, saveAlive⟩ s).2.2.any isAddRev = false) ∧
    (∃ e, (ClientEditDoc.format a b attr ⟨alive, ok, p, saveAlive⟩ s).1 = .error e) ∧
    (ClientEditDoc.format a b attr ⟨alive, ok, p, saveAlive⟩ s).2.1.rm = s.rm ∧
    ((ClientEditDoc.format a b attr ⟨alive, ok, p, saveAlive⟩ s).2.2.any isAddRev = false) ∧
    (∃ e, (ClientEditDoc.replace a b text ⟨alive, ok, p, saveAlive⟩ s).1 = .error e) ∧
    (ClientEditDoc.replace a b text ⟨alive, ok, p, saveAlive⟩ s).2.1.rm = s.rm ∧
    ((ClientEditDoc.replace a b text ⟨alive, ok, p, saveAlive⟩ s).2.2.any isAddRev = false) ∧
    (∃ e, (ClientEditDoc.compose_local_delta bytes ⟨false, ok, p, saveAlive⟩ s).1 = .error e) ∧
    (ClientEditDoc.compose_local_delta bytes ⟨false, ok, p, saveAlive⟩ s).2.1.rm = s.rm ∧
    ((ClientEditDoc.compose_local_delta bytes ⟨false, ok, p, saveAlive⟩ s).2.2.any isAddRev
      = false) := by
  rcases h with h | h
  · subst h
    cases ok <;> cases bytes <;>
      exact ⟨⟨_, rfl⟩, rfl, rfl, ⟨_, rfl⟩, rfl, rfl, ⟨_, rfl⟩, rfl, rfl, ⟨_, rfl⟩, rfl, rfl,
        ⟨_, rfl⟩, rfl, rfl⟩
  · subst h
    cases alive <;> cases bytes <;>
      exact ⟨⟨_, rfl⟩, rfl, rfl, ⟨_, rfl⟩, rfl, rfl, ⟨_, rfl⟩, rfl, rfl, ⟨_, rfl⟩, rfl, rfl,
        ⟨_, rfl⟩, rfl, rfl⟩

/-- Claim C3, witness: with a lost reply channel a concrete `insert` returns
an error and the Revision Manager is untouched. -/
theorem failed_apply_consumes_no_rev_id_witness :
    (∃ e, (ClientEditDoc.insert 0 "x" ⟨false, true, .ok (), true⟩ s0).1 = .error e) ∧
    (ClientEditDoc.insert 0 "x" ⟨false, true, .ok (), true⟩ s0).2.1.rm = s0.rm :=
  ⟨(failed_apply_consumes_no_rev_id 0 0 1 "x" "b" false true true (.ok ()) (some []) s0
      (Or.inl rfl)).1,
   (failed_apply_consumes_no_rev_id 0 0 1 "x" "b" false true true (.ok ()) (some []) s0
      (Or.inl rfl)).2.1⟩

/-- Claim C4, counterexample: an `insert` whose apply succeeds but whose
revision commit fails (persistence error) returns that failure, yet the
document content has been mutated and the undo stack has been pushed — the
claim's reject-before-mutate property does not extend to the revision-commit
step. -/
theorem commit_failure_mutates_content_cex :
    (ClientEditDoc.insert 0 "a" ⟨true, true, .error .persistence, true⟩ s0).1
      = .error .persistence ∧
    (ClientEditDoc.insert 0 "a" ⟨true, true, .error .persistence, true⟩ s0).2.1.actor.delta
      ≠ s0.actor.delta ∧
    (ClientEditDoc.insert 0 "a" ⟨true, true, .error .persistence, true⟩ s0).2.1.actor.undoStack
      ≠ s0.actor.undoStack := by
  refine ⟨rfl, ?_, ?_⟩ <;> decide

/-- Claim C4, amended: an edit that the Document Actor rejects in the apply
step surfaces the actor's specific failure and leaves the entire session state
— content, undo/redo stacks and Revision Manager — unchanged; the guarantee is
reject-before-mutate of the apply step only. -/
theorem apply_reject_leaves_state_unchanged (index a b : Nat) (text attr : String)
    (p : Except DocError Unit) (saveAlive : Bool) (s : SessionState) :
    (ClientEditDoc.insert index text ⟨true, false, p, saveAlive⟩ s).1 = .error .outOfRange ∧
    (ClientEditDoc.insert index text ⟨true, false, p, saveAlive⟩ s).2.1 = s ∧
    (ClientEditDoc.delete a b ⟨true, false, p, saveAlive⟩ s).1 = .error .outOfRange ∧
    (ClientEditDoc.delete a b ⟨true, false, p, saveAlive⟩ s).2.1 = s ∧
    (ClientEditDoc.format a b attr ⟨true, false, p, saveAlive⟩ s).1 = .error .outOfRange ∧
    (ClientEditDoc.format a b attr ⟨true, false, p, saveAlive⟩ s).2.1 = s ∧
    (ClientEditDoc.replace a b text ⟨true, false, p, saveAlive⟩ s).1 = .error .outOfRange ∧
    (ClientEditDoc.replace a b text ⟨true, false, p, saveAlive⟩ s).2.1 = s :=
  ⟨rfl, rfl, rfl, rfl, rfl, rfl, rfl, rfl⟩

/-- Claim C5: session construction is all-or-nothing.  Whenever `new` returns
an error, neither the Document Actor nor the Revision Manager has been
created; an identity failure spawns nothing at all, and a fetch failure
leaves only the already-spawned Revision Store Worker, whose mailbox sender is
not part of the error result (it is dropped). -/
theorem new_all_or_nothing (doc_id : String) (uRes : Except DocError String)
    (fRes : Except DocError DocRevision) (e : DocError)
    (hfail : (ClientEditDoc.new doc_id uRes fRes).1 = .error e) :
    (ClientEditDoc.new doc_id uRes fRes).2.docActor = false ∧
    (ClientEditDoc.new doc_id uRes fRes).2.revManager = false ∧
    (uRes = .error e → ClientEditDoc.new doc_id uRes fRes = (.error e, ⟨false, false, false⟩)) ∧
    (∀ u, uRes = .ok u → ClientEditDoc.new doc_id uRes fRes = (.error e, ⟨true, false, false⟩)) := by
  cases uRes <;> cases fRes <;> simp_all [ClientEditDoc.new]

/-- Claim C5, witness: a concrete identity-resolution failure spawns no
worker. -/
theorem new_all_or_nothing_witness :
    (ClientEditDoc.new "d" (.error .internal) (.ok ⟨0, []⟩)).2.docActor = false ∧
    (ClientEditDoc.new "d" (.error .internal) (.ok ⟨0, []⟩)).2.revManager = false :=
  ⟨(new_all_or_nothing "d" (.error .internal) (.ok ⟨0, []⟩) .internal rfl).1,
   (new_all_or_nothing "d" (.error .internal) (.ok ⟨0, []⟩) .internal rfl).2.1⟩

/-- Claim C6: for a decodable inbound `PushRev` revision, the handler first
hands the revision to the Revision Manager (appending it to the persisted
chain), then applies its delta to the Document Actor via `EditMsg::Delta` —
the same message `compose_local_delta` sends — and finally checkpoints the
actor's saved id to the received `rev_id`, in exactly that order. -/
theorem push_rev_commit_apply_checkpoint (r : Revision) (d : Delta) (saveAlive : Bool)
    (s : SessionState) (hd : r.delta_data = some d) :
    (handle_push_rev (.revision r) ⟨.ok (), true, saveAlive⟩ s).2.2 =
      [Action.rmAddRevision r, Action.sendEdit (EditMsg.Delta d),
       Action.sendEdit (EditMsg.SaveDocument r.rev_id)] ∧
    (handle_push_rev (.revision r) ⟨.ok (), true, saveAlive⟩ s).2.1.rm.chain
      = s.rm.chain ++ [r] ∧
    (handle_push_rev (.revision r) ⟨.ok (), true, saveAlive⟩ s).2.1.actor.savedRev
      = r.rev_id ∧
    (∀ env2 s2, ((ClientEditDoc.compose_local_delta (some d) env2 s2).2.2).head?
      = some (Action.sendEdit (EditMsg.Delta d))) := by
  refine ⟨?_, ?_, ?_, ?_⟩
  · simp [handle_push_rev, Revision.try_from, RevisionManager.add_revision, hd,
      Delta.fromBytes, actorDelta, recv, save_document, actorSave]
  · simp [handle_push_rev, Revision.try_from, RevisionManager.add_revision, hd,
      Delta.fromBytes, actorDelta, recv, save_document, actorSave]
  · simp [handle_push_rev, Revision.try_from, RevisionManager.add_revision, hd,
      Delta.fromBytes, actorDelta, recv, save_document, actorSave]
  · intro env2 s2
    obtain ⟨al, ok2, p2, sa2⟩ := env2
    cases al <;> cases p2 <;>
      simp [ClientEditDoc.compose_local_delta, Delta.fromBytes, actorDelta, recv,
        mk_revision, RevisionManager.next_rev_id, RevisionManager.add_revision,
        save_document]

/-- Claim C6, witness: the order holds on a concrete received revision. -/
theorem push_rev_commit_apply_checkpoint_witness :
    (handle_push_rev (.revision ⟨0, 1, some [], "doc", .Remote⟩) ⟨.ok (), true, true⟩ s0).2.2 =
      [Action.rmAddRevision ⟨0, 1, some [], "doc", .Remote⟩,
       Action.sendEdit (EditMsg.Delta []),
       Action.sendEdit (EditMsg.SaveDocument 1)] :=
  (push_rev_commit_apply_checkpoint ⟨0, 1, some [], "doc", .Remote⟩ [] true s0 rfl).1

/-- Claim C7: `receive` is fire-and-forget — it surfaces no result (its type
carries none), any handling failure is appended to the trace as a log entry
only, and `NewDocUser` and `Conflict` envelopes leave the session untouched
with no interaction at all. -/
theorem receive_fire_and_forget (dd : WsDocumentData) (env : WsEnv) (s : SessionState)
    (e : DocError) (h1 : (handle_ws_message dd env s).1 = .error e) :
    ((ClientEditDoc.receive dd env s).2
      = (handle_ws_message dd env s).2.2 ++ [Action.logError e]) ∧
    ((ClientEditDoc.receive dd env s).1 = (handle_ws_message dd env s).2.1) ∧
    (∀ p, ClientEditDoc.receive ⟨WsDataType.NewDocUser, p⟩ env s = (s, [])) ∧
    (∀ p, ClientEditDoc.receive ⟨WsDataType.Conflict, p⟩ env s = (s, [])) := by
  refine ⟨?_, ?_, ?_, ?_⟩
  · rcases hh : handle_ws_message dd env s with ⟨res, s1, tr⟩
    rw [hh] at h1
    simp only at h1
    subst h1
    simp [ClientEditDoc.receive, hh]
  · rcases hh : handle_ws_message dd env s with ⟨res, s1, tr⟩
    rw [hh] at h1
    simp only at h1
    subst h1
    simp [ClientEditDoc.receive, hh]
  · intro p
    simp [ClientEditDoc.receive, handle_ws_message]
  · intro p
    simp [ClientEditDoc.receive, handle_ws_message]

/-- Claim C7, witness: a malformed `PushRev` envelope is handled by logging
only. -/
theorem receive_fire_and_forget_witness :
    (ClientEditDoc.receive ⟨WsDataType.PushRev, .garbage⟩ ⟨⟨.ok (), true, true⟩, .ok ()⟩ s0).2
      = (handle_ws_message ⟨WsDataType.PushRev, .garbage⟩ ⟨⟨.ok (), true, true⟩, .ok ()⟩ s0).2.2
        ++ [Action.logError .malformed] :=
  (receive_fire_and_forget ⟨WsDataType.PushRev, .garbage⟩ ⟨⟨.ok (), true, true⟩, .ok ()⟩ s0
    .malformed rfl).1

/-- Claim C8: `can_undo` and `can_redo` are total boolean peeks — with a live
worker they report the respective stack's non-emptiness, with an unreachable
worker they return `false`, and an empty stack yields `false` in every case. -/
theorem can_undo_redo_never_fail (s : SessionState) :
    (ClientEditDoc.can_undo true s = !s.actor.undoStack.isEmpty) ∧
    (ClientEditDoc.can_redo true s = !s.actor.redoStack.isEmpty) ∧
    (ClientEditDoc.can_undo false s = false) ∧
    (ClientEditDoc.can_redo false s = false) ∧
    (∀ alive, s.actor.undoStack = [] → ClientEditDoc.can_undo alive s = false) ∧
    (∀ alive, s.actor.redoStack = [] → ClientEditDoc.can_redo alive s = false) := by
  refine ⟨rfl, rfl, rfl, rfl, ?_, ?_⟩
  · intro alive h
    cases alive <;> simp [ClientEditDoc.can_undo, actorCanUndo, h]
  · intro alive h
    cases alive <;> simp [ClientEditDoc.can_redo, actorCanRedo, h]

/-- Claim C8, witness: on the empty session both peeks are `false` whether or
not the worker is reachable. -/
theorem can_undo_redo_never_fail_witness :
    ClientEditDoc.can_undo true s0 = false ∧ ClientEditDoc.can_redo true s0 = false :=
  ⟨(can_undo_redo_never_fail s0).2.2.2.2.1 true rfl,
   (can_undo_redo_never_fail s0).2.2.2.2.2 true rfl⟩

/-- Claim C9: `doc()` assembles the snapshot from the session's `doc_id`, the
Document Actor's serialized state and the Revision Manager's current id; an
error reply is propagated, a lost reply channel becomes an internal error, and
in either failure case the result carries no `Doc`. -/
theorem doc_snapshot_assembly (s : SessionState) :
    (ClientEditDoc.doc true (.ok (actorDoc s.actor)) s =
      .ok { id := s.doc_id, data := serialize s.actor.delta, rev_id := s.rm.rev_id }) ∧
    (∀ e, ClientEditDoc.doc true (.error e) s = .error e) ∧
    (∀ reply, ClientEditDoc.doc false reply s = .error DocError.internal) :=
  ⟨rfl, fun _ => rfl, fun _ => rfl⟩

/-- Claim C10: after a remote revision is decoded, persisted and applied, the
final `SaveDocument` checkpoint result is discarded — `handle_push_rev`
returns `Ok(())` even though the discarded call itself failed (lost reply
channel), and neither the handler nor `receive` emits any log entry for it. -/
theorem push_rev_save_failure_discarded (r : Revision) (d : Delta) (s : SessionState)
    (hd : r.delta_data = some d) :
    (handle_push_rev (.revision r) ⟨.ok (), true, false⟩ s).1 = .ok () ∧
    ((handle_push_rev (.revision r) ⟨.ok (), true, false⟩ s).2.2.any isLog = false) ∧
    ((ClientEditDoc.receive ⟨WsDataType.PushRev, .revision r⟩
        ⟨⟨.ok (), true, false⟩, .ok ()⟩ s).2.any isLog = false) ∧
    (∀ s2, (save_document r.rev_id false s2).1 = .error DocError.internal) := by
  refine ⟨?_, ?_, ?_, fun s2 => rfl⟩
  · simp [handle_push_rev, Revision.try_from, RevisionManager.add_revision, hd,
      Delta.fromBytes, actorDelta, recv, save_document, actorSave]
  · simp [handle_push_rev, Revision.try_from, RevisionManager.add_revision, hd,
      Delta.fromBytes, actorDelta, recv, save_document, actorSave, isLog]
  · simp [ClientEditDoc.receive, handle_ws_message, handle_push_rev, Revision.try_from,
      RevisionManager.add_revision, hd, Delta.fromBytes, actorDelta, recv, save_document,
      actorSave, isLog]

/-- Claim C10, witness: concrete received revision with a failing checkpoint
reply still yields `Ok(())`. -/
theorem push_rev_save_failure_discarded_witness :
    (handle_push_rev (.revision ⟨0, 1, some [], "doc", .Remote⟩) ⟨.ok (), true, false⟩ s0).1
      = .ok () :=
  (push_rev_save_failure_discarded ⟨0, 1, some [], "doc", .Remote⟩ [] s0 rfl).1

end AppFlowy
